import Mathlib

set_option linter.unusedVariables false

/-!
Shallow embedding of SpartanEngine's RHI layer, covering the D3D12 command
list (`src/runtime/RHI/D3D12/D3D12_CommandList.cpp`) and the Vulkan pipeline
constructor (`src/runtime/RHI/Vulkan/Vulkan_Pipeline.cpp`).

Conventions:
* Machine floats are modelled as `ℚ` (the exact value a float denotes).
* Nullable pointers are modelled as `Option _`; `none` is `nullptr`.
* `SP_ASSERT`-family macros (defined in `Core/Definitions.h`, which is not
  part of the sources here) are fatal per spec section 7: a failed assertion
  terminates the process.  They are modelled as `Except.error`.
* Native API calls (D3D12/Vulkan driver entry points) are modelled as always
  succeeding; the calls a command list issues are recorded in a trace so that
  theorems can talk about what reached the backend.
* The static `Profiler::m_rhi_*` counters are carried as fields of the
  command-list state (explicit state passing of the mutable statics).
-/

/-- Outcome of a failed fatal assertion (`SP_ASSERT` / `SP_ASSERT_MSG`): the
message that would be logged before the process terminates. -/
inductive Fatal where
  | assertFail (msg : String)
  deriving Repr, DecidableEq

/-- Modelled from the spec: `SP_ASSERT(cond)` / `SP_ASSERT_MSG(cond, msg)` come
from `Core/Definitions.h`, which is not among the sources; per spec section 7 a
contract violation is a fatal assertion that terminates with a diagnostic. -/
def SP_ASSERT (p : Prop) [Decidable p] (msg : String) : Except Fatal Unit :=
  if p then .ok () else .error (.assertFail msg)

/-- Shorthand for the diagnostic every unimplemented D3D12 path raises. -/
def notImplemented : Fatal := .assertFail "Function is not implemented"

instance exceptDecidableEq {ε α : Type} [DecidableEq ε] [DecidableEq α] :
    DecidableEq (Except ε α) := fun a b =>
  match a, b with
  | .ok x, .ok y =>
      if h : x = y then .isTrue (by rw [h]) else .isFalse (by simp [h])
  | .error e, .error f =>
      if h : e = f then .isTrue (by rw [h]) else .isFalse (by simp [h])
  | .ok _, .error _ => .isFalse (by simp)
  | .error _, .ok _ => .isFalse (by simp)

/-! ## D3D12 command list (`D3D12_CommandList.cpp`) -/

/-- States of the command-list state machine (`RHI_CommandListState`,
declared in the RHI headers and described in spec section 4.3). -/
inductive RHI_CommandListState where
  | Idle
  | Recording
  | Ended
  | Submitted
  deriving Repr, DecidableEq

/-- A call issued to the native `ID3D12GraphicsCommandList`, with the argument
values the source passes. -/
inductive NativeCall where
  | reset
  | close
  | drawInstanced (vertexCountPerInstance instanceCount startVertexLocation startInstanceLocation : Nat)
  | drawIndexedInstanced (indexCountPerInstance instanceCount startIndexLocation baseVertexLocation startInstanceLocation : Nat)
  | dispatch (x y z : Nat)
  | rsSetViewports (x y width height minDepth maxDepth : ℚ)
  | rsSetScissorRects (left top right bottom : Int)
  | iaSetVertexBuffers (startSlot numViews bufferLocation strideInBytes sizeInBytes : Nat)
  | iaSetIndexBuffer (bufferLocation sizeInBytes : Nat) (format16 : Bool)
  deriving Repr, DecidableEq

/-- The slice of `RHI_Texture` the command list reads: whether
`GetFlags() & RHI_Texture_ClearBlit` is non-zero (the flag-bit values live in a
header that is not among the sources, so the masked test is carried as a
boolean), plus dimensions and format data used by the pipeline constructor. -/
structure RHI_Texture where
  has_flag_clear_blit : Bool
  width : Nat
  height : Nat
  format : Nat
  stencil_format : Bool
  deriving Repr, DecidableEq

/-- The slice of `RHI_SwapChain` used here: `GetWidth`, `GetHeight`,
`GetFormat`. -/
structure RHI_SwapChain where
  width : Nat
  height : Nat
  format : Nat
  deriving Repr, DecidableEq

/-- The slice of `RHI_VertexBuffer` used by `SetBufferVertex`: `GetObjectId`,
`GetStride`, `GetObjectSizeGpu`. -/
structure RHI_VertexBuffer where
  object_id : Nat
  stride : Nat
  object_size_gpu : Nat
  deriving Repr, DecidableEq

/-- The slice of `RHI_IndexBuffer` used by `SetBufferIndex`: `GetObjectId`,
`GetObjectSizeGpu`, `Is16Bit`. -/
structure RHI_IndexBuffer where
  object_id : Nat
  object_size_gpu : Nat
  is_16_bit : Bool
  deriving Repr, DecidableEq

/-- `RHI_Viewport` fields read by `SetViewport` (floats as `ℚ`). -/
structure RHI_Viewport where
  x : ℚ
  y : ℚ
  width : ℚ
  height : ℚ
  depth_min : ℚ
  depth_max : ℚ
  deriving Repr, DecidableEq

/-- `Math::Rectangle` fields read by `SetScissorRectangle`. -/
structure MathRectangle where
  left : ℚ
  top : ℚ
  right : ℚ
  bottom : ℚ
  deriving Repr, DecidableEq

/-- Truncation toward zero, the behavior of `static_cast<LONG>(float)`. -/
def c_cast_long (q : ℚ) : Int := if 0 ≤ q then ⌊q⌋ else ⌈q⌉

/-- Command-list state: the `m_*` members touched by `D3D12_CommandList.cpp`,
the `Profiler::m_rhi_*` statics it increments, and the trace of native calls.
`rhi_resource_ok` models `m_rhi_resource != nullptr`. -/
structure RHI_CommandList where
  m_state : RHI_CommandListState
  m_vertex_buffer_id : Nat
  m_index_buffer_id : Nat
  rhi_resource_ok : Bool
  backend_calls : List NativeCall
  m_rhi_draw : Nat
  m_rhi_dispatch : Nat
  m_rhi_bindings_buffer_vertex : Nat
  m_rhi_bindings_buffer_index : Nat
  deriving Repr, DecidableEq

/-- Append a native call to the command list's trace. -/
def RHI_CommandList.emit (cl : RHI_CommandList) (c : NativeCall) : RHI_CommandList :=
  { cl with backend_calls := cl.backend_calls ++ [c] }

/-- Modelled from the spec: `WaitForExecution` lives in the shared
`RHI_CommandList.cpp`, which is not among the sources.  Spec sections 4.3 and 5
say `Begin()` on a `Submitted` list blocks until prior GPU execution completes
and may then proceed as if idle; the wait leaves the recorded members alone and
returns the list to `Idle`. -/
def RHI_CommandList.WaitForExecution (cl : RHI_CommandList) : RHI_CommandList :=
  { cl with m_state := .Idle }

/-- `RHI_CommandList::Begin` (lines 83-101): wait if `Submitted`, assert a
non-null native resource and `Idle`, `Reset` the native list, then move to
`Recording`.  Note it does not touch `m_vertex_buffer_id`/`m_index_buffer_id`. -/
def RHI_CommandList.Begin (cl : RHI_CommandList) : Except Fatal RHI_CommandList := do
  let cl := if cl.m_state = .Submitted then cl.WaitForExecution else cl
  SP_ASSERT (cl.rhi_resource_ok = true) "m_rhi_resource != nullptr"
  SP_ASSERT (cl.m_state = .Idle) "m_state == RHI_CommandListState::Idle"
  let cl := cl.emit .reset
  return { cl with m_state := .Recording }

/-- `RHI_CommandList::End` (lines 103-112). -/
def RHI_CommandList.End (cl : RHI_CommandList) : Except Fatal RHI_CommandList := do
  SP_ASSERT (cl.rhi_resource_ok = true) "m_rhi_resource != nullptr"
  SP_ASSERT (cl.m_state = .Recording) "m_state == RHI_CommandListState::Recording"
  let cl := cl.emit .close
  return { cl with m_state := .Ended }

/-- `RHI_CommandList::Submit` (lines 114-117): the body is empty. -/
def RHI_CommandList.Submit (cl : RHI_CommandList) : Except Fatal RHI_CommandList :=
  .ok cl

/-- `RHI_CommandList::SetPipelineState` (lines 119-125); `pso.IsValid()` is
declared in a header that is not among the sources and is carried as the
boolean `pso_valid`. -/
def RHI_CommandList.SetPipelineState (cl : RHI_CommandList) (pso_valid : Bool) :
    Except Fatal RHI_CommandList := do
  SP_ASSERT (pso_valid = true) "Pipeline state is invalid"
  SP_ASSERT (cl.m_state = .Recording) "m_state == RHI_CommandListState::Recording"
  SP_ASSERT False "Function is not implemented"
  return cl

/-- `RHI_CommandList::BeginRenderPass` (lines 127-130). -/
def RHI_CommandList.BeginRenderPass (cl : RHI_CommandList) : Except Fatal RHI_CommandList := do
  SP_ASSERT False "Function is not implemented"
  return cl

/-- `RHI_CommandList::EndRenderPass` (lines 132-135). -/
def RHI_CommandList.EndRenderPass (cl : RHI_CommandList) : Except Fatal RHI_CommandList := do
  SP_ASSERT False "Function is not implemented"
  return cl

/-- `RHI_CommandList::ClearPipelineStateRenderTargets` (lines 137-140). -/
def RHI_CommandList.ClearPipelineStateRenderTargets (cl : RHI_CommandList) :
    Except Fatal RHI_CommandList := do
  SP_ASSERT False "Function is not implemented"
  return cl

/-- `RHI_CommandList::ClearRenderTarget` (lines 142-152). -/
def RHI_CommandList.ClearRenderTarget (cl : RHI_CommandList) (texture : RHI_Texture)
    (color_index depth_stencil_index : Nat) (storage : Bool) :
    Except Fatal RHI_CommandList := do
  SP_ASSERT False "Function is not implemented"
  return cl

/-- `RHI_CommandList::OnDraw` (lines 375-378): a bare "not implemented"
assert. -/
def RHI_CommandList.OnDraw (cl : RHI_CommandList) : Except Fatal RHI_CommandList := do
  SP_ASSERT False "Function is not implemented"
  return cl

/-- `RHI_CommandList::Draw` (lines 154-172). -/
def RHI_CommandList.Draw (cl : RHI_CommandList) (vertex_count vertex_start_index : Nat) :
    Except Fatal RHI_CommandList := do
  SP_ASSERT (cl.m_state = .Recording) "m_state == RHI_CommandListState::Recording"
  let cl ← cl.OnDraw
  let cl := cl.emit (.drawInstanced vertex_count 1 vertex_start_index 0)
  return { cl with m_rhi_draw := cl.m_rhi_draw + 1 }

/-- `RHI_CommandList::DrawIndexed` (lines 174-193): note the native call passes
an instance count of `1` and start instance `0`; the `instance_count` argument
is never read. -/
def RHI_CommandList.DrawIndexed (cl : RHI_CommandList)
    (index_count index_offset vertex_offset instance_count : Nat) :
    Except Fatal RHI_CommandList := do
  SP_ASSERT (cl.m_state = .Recording) "m_state == RHI_CommandListState::Recording"
  let cl ← cl.OnDraw
  let cl := cl.emit (.drawIndexedInstanced index_count 1 index_offset vertex_offset 0)
  return { cl with m_rhi_draw := cl.m_rhi_draw + 1 }

/-- `RHI_CommandList::Dispatch` (lines 195-208). -/
def RHI_CommandList.Dispatch (cl : RHI_CommandList) (x y z : Nat) (async : Bool) :
    Except Fatal RHI_CommandList := do
  SP_ASSERT (cl.m_state = .Recording) "m_state == RHI_CommandListState::Recording"
  let cl ← cl.OnDraw
  let cl := cl.emit (.dispatch x y z)
  return { cl with m_rhi_dispatch := cl.m_rhi_dispatch + 1 }

/-- `RHI_CommandList::Blit` texture-to-texture overload (lines 210-213). -/
def RHI_CommandList.Blit_texture (cl : RHI_CommandList)
    (source destination : RHI_Texture) (blit_mips : Bool) :
    Except Fatal RHI_CommandList := do
  SP_ASSERT False "Function is not implemented"
  return cl

/-- `RHI_CommandList::Blit` texture-to-swap-chain overload (lines 215-220): it
asserts the `ClearBlit` capability flag and that the source fits in the
destination — and nothing else (in particular no state-machine check). -/
def RHI_CommandList.Blit_swapchain (cl : RHI_CommandList)
    (source : RHI_Texture) (destination : RHI_SwapChain) :
    Except Fatal RHI_CommandList := do
  SP_ASSERT (source.has_flag_clear_blit = true) "The texture needs the RHI_Texture_ClearOrBlit flag"
  SP_ASSERT (source.width ≤ destination.width ∧ source.height ≤ destination.height)
    "The source texture dimension(s) are larger than the those of the destination texture"
  return cl

/-- `RHI_CommandList::Copy` texture-to-texture overload (lines 222-225). -/
def RHI_CommandList.Copy_texture (cl : RHI_CommandList)
    (source destination : RHI_Texture) (blit_mips : Bool) :
    Except Fatal RHI_CommandList := do
  SP_ASSERT False "Function is not implemented"
  return cl

/-- `RHI_CommandList::Copy` texture-to-swap-chain overload (lines 227-232):
flag plus exact-dimension asserts, again with no state-machine check. -/
def RHI_CommandList.Copy_swapchain (cl : RHI_CommandList)
    (source : RHI_Texture) (destination : RHI_SwapChain) :
    Except Fatal RHI_CommandList := do
  SP_ASSERT (source.has_flag_clear_blit = true) "The texture needs the RHI_Texture_ClearOrBlit flag"
  SP_ASSERT (source.width = destination.width) "source->GetWidth() == destination->GetWidth()"
  SP_ASSERT (source.height = destination.height) "source->GetHeight() == destination->GetHeight()"
  return cl

/-- `RHI_CommandList::SetViewport` (lines 234-248). -/
def RHI_CommandList.SetViewport (cl : RHI_CommandList) (viewport : RHI_Viewport) :
    Except Fatal RHI_CommandList := do
  SP_ASSERT (cl.m_state = .Recording) "m_state == RHI_CommandListState::Recording"
  return cl.emit (.rsSetViewports viewport.x viewport.y viewport.width viewport.height
    viewport.depth_min viewport.depth_max)

/-- `RHI_CommandList::SetScissorRectangle` (lines 250-264). -/
def RHI_CommandList.SetScissorRectangle (cl : RHI_CommandList) (r : MathRectangle) :
    Except Fatal RHI_CommandList := do
  SP_ASSERT (cl.m_state = .Recording) "m_state == RHI_CommandListState::Recording"
  return cl.emit (.rsSetScissorRects (c_cast_long r.left) (c_cast_long r.top)
    (c_cast_long r.right) (c_cast_long r.bottom))

/-- `RHI_CommandList::SetBufferVertex` (lines 266-289): skip when the cached id
matches, otherwise bind, cache the id and bump the profiler counter.  The
`binding` parameter is unused by the body. -/
def RHI_CommandList.SetBufferVertex (cl : RHI_CommandList) (buffer : RHI_VertexBuffer)
    (binding : Nat) : Except Fatal RHI_CommandList := do
  SP_ASSERT (cl.m_state = .Recording) "m_state == RHI_CommandListState::Recording"
  if cl.m_vertex_buffer_id = buffer.object_id then
    return cl
  else
    let cl := cl.emit (.iaSetVertexBuffers 0 1 0 buffer.stride buffer.object_size_gpu)
    return { cl with
      m_vertex_buffer_id := buffer.object_id
      m_rhi_bindings_buffer_vertex := cl.m_rhi_bindings_buffer_vertex + 1 }

/-- `RHI_CommandList::SetBufferIndex` (lines 291-312). -/
def RHI_CommandList.SetBufferIndex (cl : RHI_CommandList) (buffer : RHI_IndexBuffer) :
    Except Fatal RHI_CommandList := do
  SP_ASSERT (cl.m_state = .Recording) "m_state == RHI_CommandListState::Recording"
  if cl.m_index_buffer_id = buffer.object_id then
    return cl
  else
    let cl := cl.emit (.iaSetIndexBuffer 0 buffer.object_size_gpu buffer.is_16_bit)
    return { cl with
      m_index_buffer_id := buffer.object_id
      m_rhi_bindings_buffer_index := cl.m_rhi_bindings_buffer_index + 1 }

/-- `RHI_CommandList::SetConstantBuffer` (lines 314-317). -/
def RHI_CommandList.SetConstantBuffer (cl : RHI_CommandList) (slot : Nat) :
    Except Fatal RHI_CommandList := do
  SP_ASSERT False "Function is not implemented"
  return cl

/-- `RHI_CommandList::PushConstants` (lines 319-322). -/
def RHI_CommandList.PushConstants (cl : RHI_CommandList) (offset size : Nat) :
    Except Fatal RHI_CommandList := do
  SP_ASSERT False "Function is not implemented"
  return cl

/-- `RHI_CommandList::SetStructuredBuffer` (lines 324-327). -/
def RHI_CommandList.SetStructuredBuffer (cl : RHI_CommandList) (slot : Nat) :
    Except Fatal RHI_CommandList := do
  SP_ASSERT False "Function is not implemented"
  return cl

/-- `RHI_CommandList::SetSampler` (lines 329-332). -/
def RHI_CommandList.SetSampler (cl : RHI_CommandList) (slot : Nat) :
    Except Fatal RHI_CommandList := do
  SP_ASSERT False "Function is not implemented"
  return cl

/-- `RHI_CommandList::SetTexture` (lines 334-337). -/
def RHI_CommandList.SetTexture (cl : RHI_CommandList) (slot : Nat)
    (texture : RHI_Texture) (mip_index mip_range : Nat) (uav : Bool) :
    Except Fatal RHI_CommandList := do
  SP_ASSERT False "Function is not implemented"
  return cl

/-- `RHI_CommandList::BeginTimestamp` (lines 339-343): asserts, then would
return `0`. -/
def RHI_CommandList.BeginTimestamp (cl : RHI_CommandList) :
    Except Fatal (RHI_CommandList × Nat) := do
  SP_ASSERT False "Function is not implemented"
  return (cl, 0)

/-- `RHI_CommandList::EndTimestamp` (lines 345-348). -/
def RHI_CommandList.EndTimestamp (cl : RHI_CommandList) : Except Fatal RHI_CommandList := do
  SP_ASSERT False "Function is not implemented"
  return cl

/-- `RHI_CommandList::GetTimestampDuration` (lines 350-353): no assertion at
all, it just returns `0.0f`. -/
def RHI_CommandList.GetTimestampDuration (cl : RHI_CommandList) (timestamp_index : Nat) :
    Except Fatal (RHI_CommandList × ℚ) :=
  .ok (cl, 0)

/-- `RHI_CommandList::BeginTimeblock` (lines 355-358). -/
def RHI_CommandList.BeginTimeblock (cl : RHI_CommandList) (gpu_marker gpu_timing : Bool) :
    Except Fatal RHI_CommandList := do
  SP_ASSERT False "Function is not implemented"
  return cl

/-- `RHI_CommandList::EndTimeblock` (lines 360-363). -/
def RHI_CommandList.EndTimeblock (cl : RHI_CommandList) : Except Fatal RHI_CommandList := do
  SP_ASSERT False "Function is not implemented"
  return cl

/-- `RHI_CommandList::BeginMarker` (lines 365-368). -/
def RHI_CommandList.BeginMarker (cl : RHI_CommandList) : Except Fatal RHI_CommandList := do
  SP_ASSERT False "Function is not implemented"
  return cl

/-- `RHI_CommandList::EndMarker` (lines 370-373). -/
def RHI_CommandList.EndMarker (cl : RHI_CommandList) : Except Fatal RHI_CommandList := do
  SP_ASSERT False "Function is not implemented"
  return cl

/-- `RHI_CommandList::InsertMemoryBarrierImage`, raw-image overload
(lines 380-386): the body is empty. -/
def RHI_CommandList.InsertMemoryBarrierImage_image (cl : RHI_CommandList)
    (aspect_mask mip_index mip_range array_length : Nat) (layout_old layout_new : Nat) :
    Except Fatal RHI_CommandList :=
  .ok cl

/-- `RHI_CommandList::InsertMemoryBarrierImage`, texture overload
(lines 388-391): the body is empty. -/
def RHI_CommandList.InsertMemoryBarrierImage_texture (cl : RHI_CommandList)
    (texture : RHI_Texture) (mip_start mip_range array_length : Nat)
    (layout_old layout_new : Nat) : Except Fatal RHI_CommandList :=
  .ok cl

/-- `RHI_CommandList::InsertMemoryBarrierImageWaitForWrite` (lines 393-396):
the body is empty. -/
def RHI_CommandList.InsertMemoryBarrierImageWaitForWrite (cl : RHI_CommandList)
    (texture : RHI_Texture) : Except Fatal RHI_CommandList :=
  .ok cl

/-! ## Vulkan pipeline construction (`Vulkan_Pipeline.cpp`) -/

/-- A native Vulkan handle; `none` models `nullptr`/`VK_NULL_HANDLE`. -/
abbrev VkHandle := Option Nat

/-- Modelled from the spec: the `RHI_Shader_Stage` bitmask values are declared
in an RHI header that is not among the sources; section 3 of the spec says each
descriptor has "a shader-stage bitmask" over vertex/pixel/compute, so the three
stages are modelled as distinct bits. -/
def RHI_Shader_Vertex : Nat := 1

/-- Second bit of the shader-stage bitmask (see `RHI_Shader_Vertex`). -/
def RHI_Shader_Pixel : Nat := 2

/-- Third bit of the shader-stage bitmask (see `RHI_Shader_Vertex`). -/
def RHI_Shader_Compute : Nat := 4

/-- Public Vulkan API constant `VK_SHADER_STAGE_VERTEX_BIT`. -/
def VK_SHADER_STAGE_VERTEX_BIT : Nat := 1

/-- Public Vulkan API constant `VK_SHADER_STAGE_FRAGMENT_BIT`. -/
def VK_SHADER_STAGE_FRAGMENT_BIT : Nat := 16

/-- Public Vulkan API constant `VK_SHADER_STAGE_COMPUTE_BIT`. -/
def VK_SHADER_STAGE_COMPUTE_BIT : Nat := 32

/-- Public Vulkan API constant `VK_DYNAMIC_STATE_VIEWPORT`. -/
def VK_DYNAMIC_STATE_VIEWPORT : Nat := 0

/-- Public Vulkan API constant `VK_DYNAMIC_STATE_SCISSOR`. -/
def VK_DYNAMIC_STATE_SCISSOR : Nat := 1

/-- Public Vulkan API constant `VK_VERTEX_INPUT_RATE_VERTEX`. -/
def VK_VERTEX_INPUT_RATE_VERTEX : Nat := 0

/-- Public Vulkan API constant `VK_VERTEX_INPUT_RATE_INSTANCE`. -/
def VK_VERTEX_INPUT_RATE_INSTANCE : Nat := 1

/-- Byte size of `Math::Matrix` (a 4x4 matrix of 32-bit floats). -/
def sizeof_Matrix : Nat := 64

/-- Byte size of `Math::Vector4` (four 32-bit floats). -/
def sizeof_Vector4 : Nat := 16

/-- A `VkFormat` value as this translation unit produces it: either an entry of
the `vulkan_format` table at an `RHI_Format` index (the table lives in
`RHI_Implementation.h`, not among the sources, so the index is kept), the
literal `VK_FORMAT_R32G32B32A32_SFLOAT` of the instancing path, or
`VK_FORMAT_UNDEFINED`. -/
inductive VkFormatVal where
  | fromTable (rhi_format : Nat)
  | r32g32b32a32_sfloat
  | undefined
  deriving Repr, DecidableEq

/-- One entry of a vertex shader's reflected input layout
(`RHI_InputLayout::GetAttributeDescriptions()`): location, binding, RHI format
and byte offset. -/
structure RHI_InputAttribute where
  location : Nat
  binding : Nat
  format : Nat
  offset : Nat
  deriving Repr, DecidableEq

/-- The slice of `RHI_Shader` the pipeline constructor reads: the compiled
module handle (`GetRhiResource`), the entry point (`GetEntryPoint`, `none`
models a null pointer), the vertex stride (`GetVertexSize`) and the reflected
input layout (`GetInputLayout().get()`, `none` models a null pointer). -/
structure RHI_Shader where
  rhi_resource : VkHandle
  entry_point : Option String
  vertex_size : Nat
  input_layout : Option (List RHI_InputAttribute)
  deriving Repr, DecidableEq

/-- Descriptor type: the constructor only distinguishes
`RHI_Descriptor_Type::PushConstantBuffer` from everything else, so the other
enumerators are collapsed into `Other`. -/
inductive RHI_Descriptor_Type where
  | PushConstantBuffer
  | Other
  deriving Repr, DecidableEq

/-- One reflected descriptor (`RHI_Descriptor`): type, shader-stage bitmask and
push-constant byte size. -/
structure RHI_Descriptor where
  type : RHI_Descriptor_Type
  stage : Nat
  struct_size : Nat
  deriving Repr, DecidableEq

/-- The slice of `RHI_DescriptorSetLayout` the constructor reads:
`GetRhiResource()` and `GetDescriptors()`. -/
structure RHI_DescriptorSetLayout where
  rhi_resource : VkHandle
  descriptors : List RHI_Descriptor
  deriving Repr, DecidableEq

/-- The device state the constructor queries:
`RHI_Device::GetDescriptorSetLayout(RHI_Device_Resource::sampler_comparison)`,
`...(sampler_regular)` and `RHI_Device::PropertyGetMaxPushConstantSize()` (the
device code is not among the sources; spec section 4.2 describes these as
fixed singletons and a reported platform limit). -/
structure RHI_DeviceState where
  layout_sampler_comparison : VkHandle
  layout_sampler_regular : VkHandle
  max_push_constant_size : Nat
  deriving Repr, DecidableEq

/-- The slice of `RHI_RasterizerState` read by the constructor (getters on the
right of lines 276-290); floats as `ℚ`, backend-translated enums kept as their
RHI-side index. -/
structure RHI_RasterizerState where
  depth_clip_enabled : Bool
  polygon_mode : Nat
  line_width : ℚ
  cull_mode : Nat
  depth_bias : ℚ
  depth_bias_clamp : ℚ
  depth_bias_slope_scaled : ℚ
  deriving Repr, DecidableEq

/-- The slice of `RHI_BlendState` read by the constructor (lines 310-342). -/
structure RHI_BlendState where
  blend_enabled : Bool
  source_blend : Nat
  dest_blend : Nat
  blend_op : Nat
  source_blend_alpha : Nat
  dest_blend_alpha : Nat
  blend_op_alpha : Nat
  blend_factor : ℚ
  deriving Repr, DecidableEq

/-- The slice of `RHI_DepthStencilState` read by the constructor
(lines 350-359). -/
structure RHI_DepthStencilState where
  depth_test_enabled : Bool
  depth_write_enabled : Bool
  depth_comparison_function : Nat
  stencil_test_enabled : Bool
  stencil_comparison_function : Nat
  stencil_fail_operation : Nat
  stencil_depth_fail_operation : Nat
  stencil_pass_operation : Nat
  stencil_read_mask : Nat
  stencil_write_mask : Nat
  deriving Repr, DecidableEq

/-- `RHI_PipelineState` as the constructor reads it (the class itself is
declared in `RHI_PipelineState.h`, not among the sources; the fields follow
spec section 3's data model: nullable shaders, sub-states, render targets, a
fixed-size color-target array as a list, topology and flags).  `width`/`height`
model `GetWidth()`/`GetHeight()`, the spec's "viewport dimensions" field. -/
structure RHI_PipelineState where
  shader_vertex : Option RHI_Shader
  shader_pixel : Option RHI_Shader
  shader_compute : Option RHI_Shader
  rasterizer_state : Option RHI_RasterizerState
  blend_state : Option RHI_BlendState
  depth_stencil_state : Option RHI_DepthStencilState
  render_target_swapchain : Option RHI_SwapChain
  render_target_color_textures : List (Option RHI_Texture)
  render_target_depth_texture : Option RHI_Texture
  primitive_topology : Nat
  dynamic_scissor : Bool
  is_fullscreen_triangle : Bool
  instancing : Bool
  width : Nat
  height : Nat
  name : String
  deriving Repr, DecidableEq

/-- Modelled from the spec: `IsGraphics()` is declared in
`RHI_PipelineState.h`, which is not among the sources.  Spec section 3: the
graphics side holds when the "graphics shader set" (vertex or pixel shader) is
populated, with the field constraint "compute excludes vertex/pixel". -/
def RHI_PipelineState.IsGraphics (ps : RHI_PipelineState) : Bool :=
  (ps.shader_vertex.isSome || ps.shader_pixel.isSome) && ps.shader_compute.isNone

/-- Modelled from the spec: `IsCompute()` is declared in
`RHI_PipelineState.h`, which is not among the sources.  Spec section 3: the
compute side holds when the compute shader is populated, with the field
constraint "compute excludes vertex/pixel". -/
def RHI_PipelineState.IsCompute (ps : RHI_PipelineState) : Bool :=
  ps.shader_compute.isSome && (ps.shader_vertex.isNone && ps.shader_pixel.isNone)

/-- The `array<void*, 3> layouts` of lines 51-56: caller-supplied layout first,
then the two device sampler layouts, in this order. -/
def assembleSetLayouts (device : RHI_DeviceState)
    (descriptor_set_layout : RHI_DescriptorSetLayout) : List VkHandle :=
  [descriptor_set_layout.rhi_resource,
   device.layout_sampler_comparison,
   device.layout_sampler_regular]

/-- The validation loop of lines 58-62: `SP_ASSERT(layout != nullptr)` for
every entry. -/
def validateSetLayouts : List VkHandle → Except Fatal Unit
  | [] => .ok ()
  | layout :: rest => do
      SP_ASSERT (layout.isSome = true) "layout != nullptr"
      validateSetLayouts rest

/-- One `VkPushConstantRange` as filled in at lines 72-77. -/
structure VkPushConstantRange where
  offset : Nat
  size : Nat
  stageFlags : Nat
  deriving Repr, DecidableEq

/-- The stage-flag accumulation of lines 75-77: OR together the Vulkan stage
bit for every RHI stage bit present in the descriptor's mask. -/
def pushConstantStageFlags (stage : Nat) : Nat :=
  ((if stage &&& RHI_Shader_Vertex ≠ 0 then VK_SHADER_STAGE_VERTEX_BIT else 0) |||
   (if stage &&& RHI_Shader_Pixel ≠ 0 then VK_SHADER_STAGE_FRAGMENT_BIT else 0)) |||
  (if stage &&& RHI_Shader_Compute ≠ 0 then VK_SHADER_STAGE_COMPUTE_BIT else 0)

/-- The push-constant collection loop of lines 64-81, including the
`struct_size` limit assert of line 70. -/
def collectPushConstantRanges (device : RHI_DeviceState) :
    List RHI_Descriptor → Except Fatal (List VkPushConstantRange)
  | [] => .ok []
  | descriptor :: rest => do
      if descriptor.type = RHI_Descriptor_Type.PushConstantBuffer then
        SP_ASSERT (descriptor.struct_size ≤ device.max_push_constant_size)
          "descriptor.struct_size <= RHI_Device::PropertyGetMaxPushConstantSize()"
        let rest' ← collectPushConstantRanges device rest
        return ⟨0, descriptor.struct_size, pushConstantStageFlags descriptor.stage⟩ :: rest'
      else
        collectPushConstantRanges device rest

/-- The dynamic-state list of lines 106-115: viewport always, scissor only when
`dynamic_scissor` is set. -/
def makeDynamicStates (ps : RHI_PipelineState) : List Nat :=
  if ps.dynamic_scissor then [VK_DYNAMIC_STATE_VIEWPORT, VK_DYNAMIC_STATE_SCISSOR]
  else [VK_DYNAMIC_STATE_VIEWPORT]

/-- `VkViewport` as filled in at lines 124-130. -/
structure VkViewport where
  x : ℚ
  y : ℚ
  width : ℚ
  height : ℚ
  minDepth : ℚ
  maxDepth : ℚ
  deriving Repr, DecidableEq

/-- `VkRect2D` as filled in at lines 132-136. -/
structure VkRect2D where
  offset_x : Int
  offset_y : Int
  extent_width : Nat
  extent_height : Nat
  deriving Repr, DecidableEq

/-- Lines 124-130: viewport at the origin with the pipeline state's
dimensions. -/
def makeViewport (ps : RHI_PipelineState) : VkViewport :=
  ⟨0, 0, (ps.width : ℚ), (ps.height : ℚ), 0, 1⟩

/-- Lines 132-136: the baked scissor rectangle equals the full viewport (the
float round trip `uint32 → float → uint32` is exact here). -/
def makeScissor (ps : RHI_PipelineState) : VkRect2D :=
  ⟨0, 0, ps.width, ps.height⟩

/-- One `VkPipelineShaderStageCreateInfo` (stage bit, module handle, entry
point). -/
structure VkPipelineShaderStageCreateInfo where
  stage : Nat
  module : VkHandle
  pName : Option String
  deriving Repr, DecidableEq

/-- The per-stage block repeated at lines 149-195: fill the create info and
assert the module and entry point are non-null. -/
def makeShaderStage (stage_bit : Nat) (shader : RHI_Shader) :
    Except Fatal VkPipelineShaderStageCreateInfo := do
  SP_ASSERT (shader.rhi_resource.isSome = true) "shader_stage_info.module != nullptr"
  SP_ASSERT (shader.entry_point.isSome = true) "shader_stage_info.pName != nullptr"
  return ⟨stage_bit, shader.rhi_resource, shader.entry_point⟩

/-- Lines 146-195: push a stage for each of vertex, pixel, compute (in this
order) that is present on the pipeline state. -/
def collectShaderStages (ps : RHI_PipelineState) :
    Except Fatal (List VkPipelineShaderStageCreateInfo) := do
  let stages : List VkPipelineShaderStageCreateInfo := []
  let stages ← match ps.shader_vertex with
    | some shader => do
        let st ← makeShaderStage VK_SHADER_STAGE_VERTEX_BIT shader
        pure (stages ++ [st])
    | none => pure stages
  let stages ← match ps.shader_pixel with
    | some shader => do
        let st ← makeShaderStage VK_SHADER_STAGE_FRAGMENT_BIT shader
        pure (stages ++ [st])
    | none => pure stages
  let stages ← match ps.shader_compute with
    | some shader => do
        let st ← makeShaderStage VK_SHADER_STAGE_COMPUTE_BIT shader
        pure (stages ++ [st])
    | none => pure stages
  return stages

/-- `VkVertexInputBindingDescription` (binding, stride, input rate). -/
structure VkVertexInputBindingDescription where
  binding : Nat
  stride : Nat
  inputRate : Nat
  deriving Repr, DecidableEq

/-- `VkVertexInputAttributeDescription` (location, binding, format, offset). -/
structure VkVertexInputAttributeDescription where
  location : Nat
  binding : Nat
  format : VkFormatVal
  offset : Nat
  deriving Repr, DecidableEq

/-- Lines 197-250: vertex-input bindings and attributes.  Binding 0 is
per-vertex with the shader's vertex stride; with instancing a per-instance
binding 1 of one matrix stride is appended, plus four row attributes at
sequential locations after the reflected ones, each with offset
`row * sizeof(Vector4)`. -/
def makeVertexInput (ps : RHI_PipelineState) :
    List VkVertexInputBindingDescription × List VkVertexInputAttributeDescription :=
  match ps.shader_vertex with
  | none => ([], [])
  | some shader =>
    if ps.is_fullscreen_triangle then ([], [])
    else
      let bindings :=
        [⟨0, shader.vertex_size, VK_VERTEX_INPUT_RATE_VERTEX⟩] ++
        (if ps.instancing then [⟨1, sizeof_Matrix, VK_VERTEX_INPUT_RATE_INSTANCE⟩] else [])
      let reflected : List VkVertexInputAttributeDescription :=
        match shader.input_layout with
        | some descs => descs.map (fun d => ⟨d.location, d.binding, .fromTable d.format, d.offset⟩)
        | none => []
      let attrs :=
        reflected ++
        (if ps.instancing then
          (List.range 4).map
            (fun i => ⟨reflected.length + i, 1, VkFormatVal.r32g32b32a32_sfloat, i * sizeof_Vector4⟩)
        else [])
      (bindings, attrs)

/-- The translated rasterization state of lines 270-291 (the chained
depth-clip struct folded in as `depthClipEnable`). -/
structure VkRasterizerTranslated where
  depthClipEnable : Bool
  depthClampEnable : Bool
  rasterizerDiscardEnable : Bool
  polygonMode : Nat
  lineWidth : ℚ
  cullMode : Nat
  frontFaceClockwise : Bool
  depthBiasEnable : Bool
  depthBiasConstantFactor : ℚ
  depthBiasClamp : ℚ
  depthBiasSlopeFactor : ℚ
  deriving Repr, DecidableEq

/-- `Math::Helper::Floor` on a float value, as exact rational floor (via the
computable `Rat.floor`; `Math_Floor_eq` relates it to `⌊⋅⌋`). -/
def Math_Floor (q : ℚ) : ℚ := ((q.floor : ℤ) : ℚ)

/-- Lines 275-290.  `depthBiasConstantFactor` is
`Floor(GetDepthBias() * (float)(1 << 24))`; a float times the power of two
`2^24` is exact (a pure exponent shift), so the rational product models the
float product. -/
def translateRasterizer (rs : RHI_RasterizerState) : VkRasterizerTranslated where
  depthClipEnable := rs.depth_clip_enabled
  depthClampEnable := false
  rasterizerDiscardEnable := false
  polygonMode := rs.polygon_mode
  lineWidth := rs.line_width
  cullMode := rs.cull_mode
  frontFaceClockwise := true
  depthBiasEnable := decide (rs.depth_bias ≠ 0)
  depthBiasConstantFactor := Math_Floor (rs.depth_bias * ((2 : ℚ) ^ 24))
  depthBiasClamp := rs.depth_bias_clamp
  depthBiasSlopeFactor := rs.depth_bias_slope_scaled

/-- One `VkPipelineColorBlendAttachmentState` (lines 308-316); the write mask
is `R|G|B|A = 15`. -/
structure VkBlendAttachment where
  colorWriteMask : Nat
  blendEnable : Bool
  srcColorBlendFactor : Nat
  dstColorBlendFactor : Nat
  colorBlendOp : Nat
  srcAlphaBlendFactor : Nat
  dstAlphaBlendFactor : Nat
  alphaBlendOp : Nat
  deriving Repr, DecidableEq

/-- Lines 308-316: the single blend configuration shared by every
attachment. -/
def makeBlendAttachment (bs : RHI_BlendState) : VkBlendAttachment where
  colorWriteMask := 15
  blendEnable := bs.blend_enabled
  srcColorBlendFactor := bs.source_blend
  dstColorBlendFactor := bs.dest_blend
  colorBlendOp := bs.blend_op
  srcAlphaBlendFactor := bs.source_blend_alpha
  dstAlphaBlendFactor := bs.dest_blend_alpha
  alphaBlendOp := bs.blend_op_alpha

/-- Lines 318-331: one copy of the shared attachment for the swap-chain target
if present, then one per non-null color texture. -/
def makeBlendAttachments (ps : RHI_PipelineState) (bs : RHI_BlendState) :
    List VkBlendAttachment :=
  let att := makeBlendAttachment bs
  (if ps.render_target_swapchain.isSome then [att] else []) ++
  ps.render_target_color_textures.filterMap (fun t => t.map (fun _ => att))

/-- `VkPipelineColorBlendStateCreateInfo` as filled at lines 334-342; all four
blend constants equal `GetBlendFactor()`. -/
structure VkColorBlendState where
  attachments : List VkBlendAttachment
  blendConstants : List ℚ
  deriving Repr, DecidableEq

/-- Lines 301-343. -/
def makeColorBlendState (ps : RHI_PipelineState) (bs : RHI_BlendState) : VkColorBlendState where
  attachments := makeBlendAttachments ps bs
  blendConstants := [bs.blend_factor, bs.blend_factor, bs.blend_factor, bs.blend_factor]

/-- `VkStencilOpState` (lines 354-360). -/
structure VkStencilOpState where
  compareOp : Nat
  failOp : Nat
  depthFailOp : Nat
  passOp : Nat
  compareMask : Nat
  writeMask : Nat
  reference : Nat
  deriving Repr, DecidableEq

/-- The translated depth-stencil state of lines 345-364, with the reverse-z
depth bounds `(1, 0)`. -/
structure VkDepthStencilTranslated where
  depthTestEnable : Bool
  depthWriteEnable : Bool
  depthCompareOp : Nat
  stencilTestEnable : Bool
  front : VkStencilOpState
  back : VkStencilOpState
  minDepthBounds : ℚ
  maxDepthBounds : ℚ
  deriving Repr, DecidableEq

/-- Lines 349-363: `back = front`, `reference = 1`, reverse-z bounds. -/
def translateDepthStencil (ds : RHI_DepthStencilState) : VkDepthStencilTranslated :=
  let front : VkStencilOpState :=
    ⟨ds.stencil_comparison_function, ds.stencil_fail_operation,
     ds.stencil_depth_fail_operation, ds.stencil_pass_operation,
     ds.stencil_read_mask, ds.stencil_write_mask, 1⟩
  { depthTestEnable := ds.depth_test_enabled
    depthWriteEnable := ds.depth_write_enabled
    depthCompareOp := ds.depth_comparison_function
    stencilTestEnable := ds.stencil_test_enabled
    front := front
    back := front
    minDepthBounds := 1
    maxDepthBounds := 0 }

/-- The color-format loop of lines 384-394: it stops at the first null entry of
the color-target array. -/
def collectColorFormats : List (Option RHI_Texture) → List VkFormatVal
  | [] => []
  | none :: _ => []
  | some t :: rest => .fromTable t.format :: collectColorFormats rest

/-- Lines 378-409: attachment formats for dynamic rendering — the swap-chain
format when it is the target, else the prefix of non-null color textures; the
depth texture's format for depth, repeated for stencil only when the format has
a stencil channel. -/
def attachmentFormats (ps : RHI_PipelineState) :
    List VkFormatVal × VkFormatVal × VkFormatVal :=
  let colors :=
    match ps.render_target_swapchain with
    | some sc => [VkFormatVal.fromTable sc.format]
    | none => collectColorFormats ps.render_target_color_textures
  match ps.render_target_depth_texture with
  | some tex_depth =>
      (colors, .fromTable tex_depth.format,
       if tex_depth.stencil_format then .fromTable tex_depth.format else .undefined)
  | none => (colors, .undefined, .undefined)

/-- Which creation branch of lines 366-450 ran: `vkCreateGraphicsPipelines`,
`vkCreateComputePipelines`, or neither (the `if/else if` has no final else). -/
inductive PipelineKind where
  | graphics
  | compute
  | neither
  deriving Repr, DecidableEq

/-- Everything `RHI_Pipeline::RHI_Pipeline` hands to the backend: the pipeline
layout inputs and every sub-state of the pipeline create info. -/
structure RHI_PipelineBuild where
  set_layouts : List VkHandle
  push_constant_ranges : List VkPushConstantRange
  dynamic_states : List Nat
  viewport : VkViewport
  scissor : VkRect2D
  shader_stages : List VkPipelineShaderStageCreateInfo
  vertex_input_binding_descs : List VkVertexInputBindingDescription
  vertex_attribute_descs : List VkVertexInputAttributeDescription
  topology : Nat
  rasterizer_state : Option VkRasterizerTranslated
  color_blend_state : Option VkColorBlendState
  depth_stencil_state : Option VkDepthStencilTranslated
  kind : PipelineKind
  color_attachment_formats : List VkFormatVal
  depth_attachment_format : VkFormatVal
  stencil_attachment_format : VkFormatVal
  compute_stage : Option VkPipelineShaderStageCreateInfo
  deriving Repr, DecidableEq

/-- `RHI_Pipeline::RHI_Pipeline` (lines 44-451).  The native
`vkCreatePipelineLayout`/`vkCreate*Pipelines` calls are modelled as succeeding
(their `SP_VK_ASSERT_MSG` cannot fire in the model) and `SetResourceName`
failures are non-fatal, so the observable result is the assembled build data —
or the first failed assertion. -/
def RHI_Pipeline.construct (device : RHI_DeviceState) (pipeline_state : RHI_PipelineState)
    (descriptor_set_layout : RHI_DescriptorSetLayout) : Except Fatal RHI_PipelineBuild :=
  match validateSetLayouts (assembleSetLayouts device descriptor_set_layout) with
  | .error e => .error e
  | .ok _ =>
    match collectPushConstantRanges device descriptor_set_layout.descriptors with
    | .error e => .error e
    | .ok push_constant_ranges =>
      match collectShaderStages pipeline_state with
      | .error e => .error e
      | .ok shader_stages =>
        let vertex_input := makeVertexInput pipeline_state
        let base : RHI_PipelineBuild := {
          set_layouts := assembleSetLayouts device descriptor_set_layout
          push_constant_ranges := push_constant_ranges
          dynamic_states := makeDynamicStates pipeline_state
          viewport := makeViewport pipeline_state
          scissor := makeScissor pipeline_state
          shader_stages := shader_stages
          vertex_input_binding_descs := vertex_input.1
          vertex_attribute_descs := vertex_input.2
          topology := pipeline_state.primitive_topology
          rasterizer_state := pipeline_state.rasterizer_state.map translateRasterizer
          color_blend_state := pipeline_state.blend_state.map (makeColorBlendState pipeline_state)
          depth_stencil_state := pipeline_state.depth_stencil_state.map translateDepthStencil
          kind := .neither
          color_attachment_formats := []
          depth_attachment_format := .undefined
          stencil_attachment_format := .undefined
          compute_stage := none }
        if pipeline_state.IsGraphics then
          let fmts := attachmentFormats pipeline_state
          .ok { base with
            kind := .graphics
            color_attachment_formats := fmts.1
            depth_attachment_format := fmts.2.1
            stencil_attachment_format := fmts.2.2 }
        else if pipeline_state.IsCompute then
          .ok { base with kind := .compute, compute_stage := shader_stages.head? }
        else
          .ok base

/-! ## Concrete fixtures -/

/-- A command list in the `Idle` state with an empty trace and zeroed
counters. -/
def clIdle : RHI_CommandList := ⟨.Idle, 0, 0, true, [], 0, 0, 0, 0⟩

/-- The result of `Begin` on `clIdle`. -/
def clIdleBegun : RHI_CommandList := ⟨.Recording, 0, 0, true, [.reset], 0, 0, 0, 0⟩

/-- A command list in the `Recording` state. -/
def clRecording : RHI_CommandList := ⟨.Recording, 0, 0, true, [], 0, 0, 0, 0⟩

/-- A command list in the `Ended` state. -/
def clEnded : RHI_CommandList := ⟨.Ended, 0, 0, true, [], 0, 0, 0, 0⟩

/-- An idle command list whose cached vertex-buffer id is `7` (as after
recording with buffer `7` earlier in its life). -/
def clCached : RHI_CommandList := ⟨.Idle, 7, 0, true, [], 0, 0, 0, 0⟩

/-- The result of `Begin` on `clCached`: note the cached id survives. -/
def clCachedBegun : RHI_CommandList := ⟨.Recording, 7, 0, true, [.reset], 0, 0, 0, 0⟩

/-- A vertex buffer with object id `7`. -/
def vb7 : RHI_VertexBuffer := ⟨7, 12, 480⟩

/-- An index buffer with object id `0`, matching a freshly cached index id. -/
def ib0 : RHI_IndexBuffer := ⟨0, 256, true⟩

/-- A blit-capable 4x4 texture. -/
def texSmall : RHI_Texture := ⟨true, 4, 4, 0, false⟩

/-- An 8x8 swap chain. -/
def swap8 : RHI_SwapChain := ⟨8, 8, 0⟩

/-- A device whose sampler layouts are present and whose push-constant limit is
128 bytes. -/
def deviceOk : RHI_DeviceState := ⟨some 21, some 22, 128⟩

/-- A descriptor-set layout with a non-null native handle and no
descriptors. -/
def dslOk : RHI_DescriptorSetLayout := ⟨some 11, []⟩

/-- A pipeline state with no shaders at all: `IsGraphics()` and `IsCompute()`
are both false. -/
def psEmpty : RHI_PipelineState :=
  ⟨none, none, none, none, none, none, none, [], none, 0, false, false, false, 0, 0, ""⟩

/-- A vertex shader with a compiled module, an entry point and one reflected
attribute. -/
def shaderV : RHI_Shader := ⟨some 31, some "mainVS", 20, some [⟨0, 0, 5, 0⟩]⟩

/-- A rasterizer state with depth bias `1/2`. -/
def rsBias : RHI_RasterizerState := ⟨true, 0, 1, 0, 1/2, 0, 0⟩

/-- A graphics pipeline state: vertex shader plus `rsBias`, rendering to
`swap8`. -/
def psGfx : RHI_PipelineState :=
  ⟨some shaderV, none, none, some rsBias, none, none, some swap8, [], none,
   0, false, false, false, 8, 8, "gfx"⟩

/-- A sequence of `n` consecutive `SetBufferVertex(buffer)` calls on one
command list (claim C7's "sequence of calls with the same buffer
identity"). -/
def setBufferVertexN (cl : RHI_CommandList) (buffer : RHI_VertexBuffer) :
    Nat → Except Fatal RHI_CommandList
  | 0 => .ok cl
  | n + 1 =>
    match RHI_CommandList.SetBufferVertex cl buffer 0 with
    | .error e => .error e
    | .ok cl' => setBufferVertexN cl' buffer n

/-- The build produced by `RHI_Pipeline.construct deviceOk psEmpty dslOk`. -/
def bEmpty : RHI_PipelineBuild :=
  ⟨[some 11, some 21, some 22], [], [0], ⟨0, 0, 0, 0, 0, 1⟩, ⟨0, 0, 0, 0⟩,
   [], [], [], 0, none, none, none, .neither, [], .undefined, .undefined, none⟩

/-- The build produced by `RHI_Pipeline.construct deviceOk psGfx dslOk`. -/
def bGfx : RHI_PipelineBuild :=
  ⟨[some 11, some 21, some 22], [], [0], ⟨0, 0, 8, 8, 0, 1⟩, ⟨0, 0, 8, 8⟩,
   [⟨1, some 31, some "mainVS"⟩], [⟨0, 20, 0⟩], [⟨0, 0, .fromTable 5, 0⟩], 0,
   some ⟨true, false, false, 0, 1, 0, true, true, 8388608, 0, 0⟩,
   none, none, .graphics, [.fromTable 0], .undefined, .undefined, none⟩

/-! ## Helper lemmas -/

/-- `Math_Floor` agrees with the floor of the rational. -/
theorem Math_Floor_eq (q : ℚ) : Math_Floor q = ((⌊q⌋ : ℤ) : ℚ) := by
  unfold Math_Floor
  rw [Rat.floor_def' q, Rat.floor_def]

theorem exceptBind_ok {α β : Type} (a : α) (f : α → Except Fatal β) :
    (Except.ok a >>= f) = f a := rfl

theorem exceptBind_err {α β : Type} (e : Fatal) (f : α → Except Fatal β) :
    ((Except.error e : Except Fatal α) >>= f) = Except.error e := rfl

theorem exceptPure {α : Type} (a : α) : (pure a : Except Fatal α) = Except.ok a := rfl

/-- `Begin` on an `ok` input yields `Recording`, keeps the cached buffer ids
and the profiling counters, and implies the native resource was non-null. -/
theorem Begin_ok_shape (cl cl' : RHI_CommandList)
    (h : RHI_CommandList.Begin cl = .ok cl') :
    cl'.m_state = .Recording ∧ cl'.rhi_resource_ok = true ∧
    cl'.m_vertex_buffer_id = cl.m_vertex_buffer_id ∧
    cl'.m_index_buffer_id = cl.m_index_buffer_id ∧
    cl'.m_rhi_bindings_buffer_vertex = cl.m_rhi_bindings_buffer_vertex ∧
    cl'.m_rhi_bindings_buffer_index = cl.m_rhi_bindings_buffer_index := by
  unfold RHI_CommandList.Begin at h
  by_cases hw : cl.m_state = RHI_CommandListState.Submitted <;>
  by_cases hr : cl.rhi_resource_ok = true <;>
  by_cases hs : cl.m_state = RHI_CommandListState.Idle <;>
  simp [RHI_CommandList.WaitForExecution, RHI_CommandList.emit, SP_ASSERT, hw, hr, hs,
    exceptBind_ok, exceptBind_err, exceptPure] at h <;>
  (try cases h) <;>
  simp [RHI_CommandList.WaitForExecution, RHI_CommandList.emit]

/-- `SetBufferVertex` in `Recording` with the cached id already equal to the
buffer's id is a pure skip: no native call, no counter change. -/
theorem SetBufferVertex_skip (cl : RHI_CommandList) (buffer : RHI_VertexBuffer)
    (binding : Nat) (hs : cl.m_state = .Recording)
    (hid : cl.m_vertex_buffer_id = buffer.object_id) :
    RHI_CommandList.SetBufferVertex cl buffer binding = .ok cl := by
  simp [RHI_CommandList.SetBufferVertex, SP_ASSERT, hs, hid,
    exceptBind_ok, exceptPure]

/-- `SetBufferVertex` in `Recording` with a different cached id performs the
bind: it emits the native call, caches the id, and bumps the counter. -/
theorem SetBufferVertex_bind (cl : RHI_CommandList) (buffer : RHI_VertexBuffer)
    (binding : Nat) (hs : cl.m_state = .Recording)
    (hid : cl.m_vertex_buffer_id ≠ buffer.object_id) :
    RHI_CommandList.SetBufferVertex cl buffer binding =
      .ok { cl.emit (.iaSetVertexBuffers 0 1 0 buffer.stride buffer.object_size_gpu) with
            m_vertex_buffer_id := buffer.object_id
            m_rhi_bindings_buffer_vertex := cl.m_rhi_bindings_buffer_vertex + 1 } := by
  simp [RHI_CommandList.SetBufferVertex, RHI_CommandList.emit, SP_ASSERT, hs, hid,
    exceptBind_ok, exceptPure]

/-- `SetBufferIndex` in `Recording` with the cached id already equal to the
buffer's id is a pure skip: no native call, no counter change. -/
theorem SetBufferIndex_skip (cl : RHI_CommandList) (buffer : RHI_IndexBuffer)
    (hs : cl.m_state = .Recording)
    (hid : cl.m_index_buffer_id = buffer.object_id) :
    RHI_CommandList.SetBufferIndex cl buffer = .ok cl := by
  simp [RHI_CommandList.SetBufferIndex, SP_ASSERT, hs, hid,
    exceptBind_ok, exceptPure]

/-- `SetBufferIndex` in `Recording` with a different cached id performs the
bind: it emits the native call, caches the id, and bumps the counter. -/
theorem SetBufferIndex_bind (cl : RHI_CommandList) (buffer : RHI_IndexBuffer)
    (hs : cl.m_state = .Recording)
    (hid : cl.m_index_buffer_id ≠ buffer.object_id) :
    RHI_CommandList.SetBufferIndex cl buffer =
      .ok { cl.emit (.iaSetIndexBuffer 0 buffer.object_size_gpu buffer.is_16_bit) with
            m_index_buffer_id := buffer.object_id
            m_rhi_bindings_buffer_index := cl.m_rhi_bindings_buffer_index + 1 } := by
  simp [RHI_CommandList.SetBufferIndex, RHI_CommandList.emit, SP_ASSERT, hs, hid,
    exceptBind_ok, exceptPure]

/-- Once the buffer is the cached one, any further run of calls is a no-op. -/
theorem setBufferVertexN_skip (buffer : RHI_VertexBuffer) (n : Nat)
    (cl : RHI_CommandList) (hs : cl.m_state = .Recording)
    (hid : cl.m_vertex_buffer_id = buffer.object_id) :
    setBufferVertexN cl buffer n = .ok cl := by
  induction n with
  | zero => rfl
  | succ n ih =>
    simp [setBufferVertexN, SetBufferVertex_skip cl buffer 0 hs hid, ih]

/-- `validateSetLayouts` succeeds only if every entry is non-null. -/
theorem validateSetLayouts_ok (layouts : List VkHandle)
    (h : validateSetLayouts layouts = .ok ()) :
    ∀ l ∈ layouts, l.isSome = true := by
  induction layouts with
  | nil => intro l hl; cases hl
  | cons x rest ih =>
    intro l hl
    by_cases hx : x.isSome = true
    · simp [validateSetLayouts, SP_ASSERT, hx, exceptBind_ok] at h
      rcases List.mem_cons.mp hl with rfl | hl'
      · exact hx
      · exact ih h l hl'
    · simp [validateSetLayouts, SP_ASSERT, hx, exceptBind_err] at h

/-- Any successful construction keeps the assembled set-layout list, implies
its validation passed, and carries the 1:1-translated rasterizer state. -/
theorem construct_ok_fields (device : RHI_DeviceState) (ps : RHI_PipelineState)
    (dsl : RHI_DescriptorSetLayout) (b : RHI_PipelineBuild)
    (h : RHI_Pipeline.construct device ps dsl = .ok b) :
    b.set_layouts = assembleSetLayouts device dsl ∧
    validateSetLayouts (assembleSetLayouts device dsl) = .ok () ∧
    b.rasterizer_state = ps.rasterizer_state.map translateRasterizer := by
  unfold RHI_Pipeline.construct at h
  cases hval : validateSetLayouts (assembleSetLayouts device dsl) with
  | error e => rw [hval] at h; cases h
  | ok u =>
    cases u
    rw [hval] at h
    cases hpc : collectPushConstantRanges device dsl.descriptors with
    | error e => rw [hpc] at h; cases h
    | ok ranges =>
      rw [hpc] at h
      cases hst : collectShaderStages ps with
      | error e => rw [hst] at h; cases h
      | ok stages =>
        rw [hst] at h
        by_cases hg : ps.IsGraphics = true <;>
        by_cases hc : ps.IsCompute = true <;>
        simp [hg, hc] at h <;>
        cases h <;> simp


/-- The concrete graphics construction evaluates to `bGfx`. -/
theorem construct_psGfx : RHI_Pipeline.construct deviceOk psGfx dslOk = .ok bGfx := by
  unfold RHI_Pipeline.construct
  have h1 : validateSetLayouts (assembleSetLayouts deviceOk dslOk) = .ok () := by decide
  have h2 : collectPushConstantRanges deviceOk dslOk.descriptors = .ok [] := by decide
  have h3 : collectShaderStages psGfx = .ok [⟨1, some 31, some "mainVS"⟩] := by decide
  rw [h1, h2, h3]
  norm_num [psGfx, RHI_PipelineState.IsGraphics, RHI_PipelineState.IsCompute, shaderV,
    makeVertexInput, makeDynamicStates, makeViewport, makeScissor, translateRasterizer,
    attachmentFormats, collectColorFormats, assembleSetLayouts, deviceOk, dslOk, swap8,
    rsBias, bGfx, VK_SHADER_STAGE_VERTEX_BIT, VK_VERTEX_INPUT_RATE_VERTEX,
    sizeof_Matrix, sizeof_Vector4, VK_DYNAMIC_STATE_VIEWPORT, VK_DYNAMIC_STATE_SCISSOR,
    Math_Floor_eq, decide_eq_true_eq]

/-! ## Claims -/

/-- C1, counterexample: the pipeline state with no shaders has
`IsGraphics() == IsCompute()` (both false), yet `RHI_Pipeline` construction
does not fail fatally — it completes, taking neither creation branch. -/
theorem C1_counterexample :
    psEmpty.IsGraphics = psEmpty.IsCompute ∧
    RHI_Pipeline.construct deviceOk psEmpty dslOk = .ok bEmpty := by
  exact ⟨rfl, by decide⟩

/-- C1 (amended): `IsGraphics()`/`IsCompute()` are mutually exclusive but not
totally covering; when both are false the constructor does not fail fatally on
that account — it completes (when its generic asserts pass) without taking
either creation branch. -/
theorem C1_graphics_compute_exclusive_not_total :
    (∀ ps : RHI_PipelineState, ¬ (ps.IsGraphics = true ∧ ps.IsCompute = true)) ∧
    (∀ (device : RHI_DeviceState) (ps : RHI_PipelineState)
       (dsl : RHI_DescriptorSetLayout) (b : RHI_PipelineBuild),
       ps.IsGraphics = false → ps.IsCompute = false →
       RHI_Pipeline.construct device ps dsl = .ok b → b.kind = .neither) := by
  constructor
  · rintro ps ⟨hg, hc⟩
    unfold RHI_PipelineState.IsGraphics at hg
    unfold RHI_PipelineState.IsCompute at hc
    rw [Bool.and_eq_true] at hg hc
    rcases hg with ⟨-, hg2⟩
    rcases hc with ⟨hc1, -⟩
    rw [Option.isNone_iff_eq_none] at hg2
    rw [hg2] at hc1
    simp at hc1
  · intro device ps dsl b hg hc h
    unfold RHI_Pipeline.construct at h
    cases hval : validateSetLayouts (assembleSetLayouts device dsl) with
    | error e => rw [hval] at h; cases h
    | ok u =>
      cases u
      rw [hval] at h
      cases hpc : collectPushConstantRanges device dsl.descriptors with
      | error e => rw [hpc] at h; cases h
      | ok ranges =>
        rw [hpc] at h
        cases hst : collectShaderStages ps with
        | error e => rw [hst] at h; cases h
        | ok stages =>
          rw [hst] at h
          simp [hg, hc] at h
          cases h
          rfl

/-- C1 witness: at the shaderless pipeline state both predicates are false and
construction succeeds with neither branch taken. -/
theorem C1_witness :
    psEmpty.IsGraphics = false ∧ psEmpty.IsCompute = false ∧
    RHI_Pipeline.construct deviceOk psEmpty dslOk = .ok bEmpty ∧
    bEmpty.kind = PipelineKind.neither :=
  ⟨by decide, by decide, by decide,
   C1_graphics_compute_exclusive_not_total.2 deviceOk psEmpty dslOk bEmpty
     (by decide) (by decide) (by decide)⟩

/-- C2, counterexample: `Submit`, the image memory barrier and
`GetTimestampDuration` are unimplemented on D3D12 yet do NOT fail fatally —
`Submit` and the barrier silently no-op, and `GetTimestampDuration` returns the
soft value `0.0f`. -/
theorem C2_counterexample :
    RHI_CommandList.Submit clEnded = .ok clEnded ∧
    RHI_CommandList.InsertMemoryBarrierImage_texture clEnded texSmall 0 1 1 0 0 =
      .ok clEnded ∧
    RHI_CommandList.GetTimestampDuration clEnded 0 = .ok (clEnded, 0) :=
  ⟨rfl, rfl, rfl⟩

/-- C2 (amended): the unimplemented D3D12 command-list paths —
`SetPipelineState` (once its validity and state asserts pass), render passes,
clears, texture-to-texture `Blit`/`Copy`, constant/structured buffers, push
constants, samplers, `SetTexture`, timestamps, timeblocks, markers, `OnDraw` —
fail fatally with the "not implemented" diagnostic, but `Submit`, both
`InsertMemoryBarrierImage` overloads and `InsertMemoryBarrierImageWaitForWrite`
silently no-op, and `GetTimestampDuration` returns the soft value `0.0f`. -/
theorem C2_unimplemented_paths :
    (∀ cl : RHI_CommandList, cl.m_state = RHI_CommandListState.Recording →
      RHI_CommandList.SetPipelineState cl true = .error notImplemented) ∧
    (∀ cl : RHI_CommandList, cl.BeginRenderPass = .error notImplemented) ∧
    (∀ cl : RHI_CommandList, cl.EndRenderPass = .error notImplemented) ∧
    (∀ cl : RHI_CommandList, cl.ClearPipelineStateRenderTargets = .error notImplemented) ∧
    (∀ (cl : RHI_CommandList) tex ci di st,
      cl.ClearRenderTarget tex ci di st = .error notImplemented) ∧
    (∀ (cl : RHI_CommandList) s d m, cl.Blit_texture s d m = .error notImplemented) ∧
    (∀ (cl : RHI_CommandList) s d m, cl.Copy_texture s d m = .error notImplemented) ∧
    (∀ (cl : RHI_CommandList) slot, cl.SetConstantBuffer slot = .error notImplemented) ∧
    (∀ (cl : RHI_CommandList) o s, cl.PushConstants o s = .error notImplemented) ∧
    (∀ (cl : RHI_CommandList) slot, cl.SetStructuredBuffer slot = .error notImplemented) ∧
    (∀ (cl : RHI_CommandList) slot, cl.SetSampler slot = .error notImplemented) ∧
    (∀ (cl : RHI_CommandList) slot tex mi mr uav,
      cl.SetTexture slot tex mi mr uav = .error notImplemented) ∧
    (∀ cl : RHI_CommandList, cl.BeginTimestamp = .error notImplemented) ∧
    (∀ cl : RHI_CommandList, cl.EndTimestamp = .error notImplemented) ∧
    (∀ (cl : RHI_CommandList) gm gt, cl.BeginTimeblock gm gt = .error notImplemented) ∧
    (∀ cl : RHI_CommandList, cl.EndTimeblock = .error notImplemented) ∧
    (∀ cl : RHI_CommandList, cl.BeginMarker = .error notImplemented) ∧
    (∀ cl : RHI_CommandList, cl.EndMarker = .error notImplemented) ∧
    (∀ cl : RHI_CommandList, cl.OnDraw = .error notImplemented) ∧
    (∀ cl : RHI_CommandList, cl.Submit = .ok cl) ∧
    (∀ (cl : RHI_CommandList) a b c d e f,
      cl.InsertMemoryBarrierImage_image a b c d e f = .ok cl) ∧
    (∀ (cl : RHI_CommandList) t a b c d e,
      cl.InsertMemoryBarrierImage_texture t a b c d e = .ok cl) ∧
    (∀ (cl : RHI_CommandList) t, cl.InsertMemoryBarrierImageWaitForWrite t = .ok cl) ∧
    (∀ (cl : RHI_CommandList) i, cl.GetTimestampDuration i = .ok (cl, 0)) :=
  ⟨fun cl h => by
     simp [RHI_CommandList.SetPipelineState, SP_ASSERT, h, exceptBind_ok,
       exceptBind_err, exceptPure, notImplemented],
   fun _ => rfl, fun _ => rfl, fun _ => rfl, fun _ _ _ _ _ => rfl,
   fun _ _ _ _ => rfl, fun _ _ _ _ => rfl, fun _ _ => rfl, fun _ _ _ => rfl,
   fun _ _ => rfl, fun _ _ => rfl, fun _ _ _ _ _ _ => rfl, fun _ => rfl,
   fun _ => rfl, fun _ _ _ => rfl, fun _ => rfl, fun _ => rfl, fun _ => rfl,
   fun _ => rfl, fun _ => rfl, fun _ _ _ _ _ _ _ => rfl,
   fun _ _ _ _ _ _ _ => rfl, fun _ _ => rfl, fun _ _ => rfl⟩

/-- C2 witness: `SetPipelineState` with a valid pipeline state while
`Recording` dies with the "not implemented" diagnostic. -/
theorem C2_witness :
    clRecording.m_state = RHI_CommandListState.Recording ∧
    RHI_CommandList.SetPipelineState clRecording true = .error notImplemented :=
  ⟨rfl, C2_unimplemented_paths.1 clRecording rfl⟩

/-- C3, counterexample: on a command list in the `Ended` state, `Submit()`
returns it unchanged — the state after `Submit` is still `Ended`, not
`Submitted`. -/
theorem C3_counterexample :
    RHI_CommandList.Submit clEnded = .ok clEnded ∧
    clEnded.m_state = RHI_CommandListState.Ended ∧
    clEnded.m_state ≠ RHI_CommandListState.Submitted :=
  ⟨rfl, rfl, by decide⟩

/-- C3 (amended): the D3D12 `Submit()` is an unimplemented empty stub: it
queues nothing and leaves the state machine untouched, so a list that was
`Ended` stays `Ended` instead of moving to `Submitted`. -/
theorem C3_submit_noop (cl : RHI_CommandList) :
    RHI_CommandList.Submit cl = .ok cl := rfl

/-- C4, counterexample: on an idle (not `Recording`) command list, `Blit` to a
swap chain with a capable, fitting source succeeds, and the image memory
barrier silently no-ops — neither fails fatally outside `Recording`. -/
theorem C4_counterexample :
    clIdle.m_state ≠ RHI_CommandListState.Recording ∧
    RHI_CommandList.Blit_swapchain clIdle texSmall swap8 = .ok clIdle ∧
    RHI_CommandList.InsertMemoryBarrierImage_texture clIdle texSmall 0 1 1 0 0 =
      .ok clIdle :=
  ⟨by decide, by decide, rfl⟩

/-- C4 (amended): outside `Recording`, the draw/dispatch/viewport/scissor/
buffer-binding/pipeline operations fail fatally on the state assert, but
`Blit`/`Copy` to a swap chain check only the capability flag and dimensions
(no state check) and the memory-barrier insertions perform no check at all. -/
theorem C4_state_gating (cl : RHI_CommandList)
    (h : cl.m_state ≠ RHI_CommandListState.Recording) :
    (∀ vc vs, RHI_CommandList.Draw cl vc vs =
        .error (.assertFail "m_state == RHI_CommandListState::Recording")) ∧
    (∀ idx off voff inst, RHI_CommandList.DrawIndexed cl idx off voff inst =
        .error (.assertFail "m_state == RHI_CommandListState::Recording")) ∧
    (∀ x y z a, RHI_CommandList.Dispatch cl x y z a =
        .error (.assertFail "m_state == RHI_CommandListState::Recording")) ∧
    (∀ vp, RHI_CommandList.SetViewport cl vp =
        .error (.assertFail "m_state == RHI_CommandListState::Recording")) ∧
    (∀ r, RHI_CommandList.SetScissorRectangle cl r =
        .error (.assertFail "m_state == RHI_CommandListState::Recording")) ∧
    (∀ buf bnd, RHI_CommandList.SetBufferVertex cl buf bnd =
        .error (.assertFail "m_state == RHI_CommandListState::Recording")) ∧
    (∀ buf, RHI_CommandList.SetBufferIndex cl buf =
        .error (.assertFail "m_state == RHI_CommandListState::Recording")) ∧
    (∀ v, (RHI_CommandList.SetPipelineState cl v).isOk = false) ∧
    (∀ src dst, src.has_flag_clear_blit = true → src.width ≤ dst.width →
      src.height ≤ dst.height →
      RHI_CommandList.Blit_swapchain cl src dst = .ok cl) ∧
    (∀ src dst, src.has_flag_clear_blit = true → src.width = dst.width →
      src.height = dst.height →
      RHI_CommandList.Copy_swapchain cl src dst = .ok cl) ∧
    (∀ a b c d e f, RHI_CommandList.InsertMemoryBarrierImage_image cl a b c d e f = .ok cl) ∧
    (∀ t a b c d e, RHI_CommandList.InsertMemoryBarrierImage_texture cl t a b c d e = .ok cl) ∧
    (∀ t, RHI_CommandList.InsertMemoryBarrierImageWaitForWrite cl t = .ok cl) := by
  refine ⟨?_, ?_, ?_, ?_, ?_, ?_, ?_, ?_, ?_, ?_, ?_, ?_, ?_⟩ <;> intros <;>
    first
    | rfl
    | (simp [RHI_CommandList.Draw, RHI_CommandList.DrawIndexed, RHI_CommandList.Dispatch,
        RHI_CommandList.SetViewport, RHI_CommandList.SetScissorRectangle,
        RHI_CommandList.SetBufferVertex, RHI_CommandList.SetBufferIndex,
        RHI_CommandList.Blit_swapchain, RHI_CommandList.Copy_swapchain,
        RHI_CommandList.OnDraw,
        SP_ASSERT, h, exceptBind_ok, exceptBind_err, exceptPure, *])
    | (rename_i v
       cases v <;>
         simp [RHI_CommandList.SetPipelineState, SP_ASSERT, h, exceptBind_ok,
           exceptBind_err, exceptPure, Except.isOk, Except.toBool])

/-- C4 witness: on the `Ended` list, `Draw` fails on the state assert while a
capable in-bounds `Blit` to a swap chain succeeds. -/
theorem C4_witness :
    clEnded.m_state ≠ RHI_CommandListState.Recording ∧
    RHI_CommandList.Draw clEnded 3 0 =
      .error (.assertFail "m_state == RHI_CommandListState::Recording") ∧
    RHI_CommandList.Blit_swapchain clEnded texSmall swap8 = .ok clEnded :=
  ⟨by decide, (C4_state_gating clEnded (by decide)).1 3 0,
   (C4_state_gating clEnded (by decide)).2.2.2.2.2.2.2.2.1 texSmall swap8
     (by decide) (by decide) (by decide)⟩

/-- C5: calling `Begin()` twice in a row — the second call while the list is
already `Recording` — fails fatally on the `Idle`-state assertion. -/
theorem C5_begin_twice_fatal (cl cl' : RHI_CommandList)
    (h : RHI_CommandList.Begin cl = .ok cl') :
    RHI_CommandList.Begin cl' =
      .error (.assertFail "m_state == RHI_CommandListState::Idle") := by
  obtain ⟨hs, hr, -, -, -, -⟩ := Begin_ok_shape cl cl' h
  unfold RHI_CommandList.Begin
  simp [hs, hr, SP_ASSERT, exceptBind_ok, exceptBind_err, exceptPure]

/-- C5 witness: `Begin` on the fresh idle list succeeds, and a second `Begin`
without `End`/`Submit` fails fatally. -/
theorem C5_witness :
    RHI_CommandList.Begin clIdle = .ok clIdleBegun ∧
    RHI_CommandList.Begin clIdleBegun =
      .error (.assertFail "m_state == RHI_CommandListState::Idle") :=
  ⟨by decide, C5_begin_twice_fatal clIdle clIdleBegun (by decide)⟩

/-- C6, counterexample: buffer `7` was the cached binding before `Begin()`;
after `Begin()` the first `SetBufferVertex` with that same buffer does NOT
perform an actual bind — the list is returned unchanged, with no native
`IASetVertexBuffers` call and no counter increment. -/
theorem C6_counterexample :
    clCached.m_vertex_buffer_id = vb7.object_id ∧
    RHI_CommandList.Begin clCached = .ok clCachedBegun ∧
    RHI_CommandList.SetBufferVertex clCachedBegun vb7 0 = .ok clCachedBegun ∧
    clCachedBegun.m_rhi_bindings_buffer_vertex = 0 ∧
    clCachedBegun.backend_calls = [NativeCall.reset] := by
  exact ⟨rfl, by decide, by decide, rfl, rfl⟩

/-- C6 (amended): the cached binding identities are compared by object id, but
`Begin()` does NOT invalidate them: it preserves both cached ids, so after
`Begin()` a `SetBufferVertex` or `SetBufferIndex` whose buffer id equals the
surviving cached id skips the bind, while a differing id performs the actual
bind. -/
theorem C6_cache_not_invalidated_by_begin :
    (∀ cl cl', RHI_CommandList.Begin cl = .ok cl' →
      cl'.m_vertex_buffer_id = cl.m_vertex_buffer_id ∧
      cl'.m_index_buffer_id = cl.m_index_buffer_id) ∧
    (∀ cl buf bnd, cl.m_state = RHI_CommandListState.Recording →
      cl.m_vertex_buffer_id = buf.object_id →
      RHI_CommandList.SetBufferVertex cl buf bnd = .ok cl) ∧
    (∀ cl buf bnd, cl.m_state = RHI_CommandListState.Recording →
      cl.m_vertex_buffer_id ≠ buf.object_id →
      RHI_CommandList.SetBufferVertex cl buf bnd =
        .ok { cl.emit (.iaSetVertexBuffers 0 1 0 buf.stride buf.object_size_gpu) with
              m_vertex_buffer_id := buf.object_id
              m_rhi_bindings_buffer_vertex := cl.m_rhi_bindings_buffer_vertex + 1 }) ∧
    (∀ cl buf, cl.m_state = RHI_CommandListState.Recording →
      cl.m_index_buffer_id = buf.object_id →
      RHI_CommandList.SetBufferIndex cl buf = .ok cl) ∧
    (∀ cl buf, cl.m_state = RHI_CommandListState.Recording →
      cl.m_index_buffer_id ≠ buf.object_id →
      RHI_CommandList.SetBufferIndex cl buf =
        .ok { cl.emit (.iaSetIndexBuffer 0 buf.object_size_gpu buf.is_16_bit) with
              m_index_buffer_id := buf.object_id
              m_rhi_bindings_buffer_index := cl.m_rhi_bindings_buffer_index + 1 }) := by
  refine ⟨?_, ?_, ?_, ?_, ?_⟩
  · intro cl cl' h
    obtain ⟨-, -, h1, h2, -, -⟩ := Begin_ok_shape cl cl' h
    exact ⟨h1, h2⟩
  · exact fun cl buf bnd hs hid => SetBufferVertex_skip cl buf bnd hs hid
  · exact fun cl buf bnd hs hid => SetBufferVertex_bind cl buf bnd hs hid
  · exact fun cl buf hs hid => SetBufferIndex_skip cl buf hs hid
  · exact fun cl buf hs hid => SetBufferIndex_bind cl buf hs hid

/-- C6 witness: the begun list still caches vertex id `7` and index id `0`,
and both `SetBufferVertex` with buffer `7` and `SetBufferIndex` with buffer `0`
are skipped. -/
theorem C6_witness :
    clCachedBegun.m_state = RHI_CommandListState.Recording ∧
    clCachedBegun.m_vertex_buffer_id = vb7.object_id ∧
    RHI_CommandList.SetBufferVertex clCachedBegun vb7 0 = .ok clCachedBegun ∧
    clCachedBegun.m_index_buffer_id = ib0.object_id ∧
    RHI_CommandList.SetBufferIndex clCachedBegun ib0 = .ok clCachedBegun :=
  ⟨rfl, rfl,
   C6_cache_not_invalidated_by_begin.2.1 clCachedBegun vb7 0 (by decide) (by decide),
   rfl,
   C6_cache_not_invalidated_by_begin.2.2.2.1 clCachedBegun ib0 (by decide) (by decide)⟩

/-- C7: a run of `n + 1` consecutive `SetBufferVertex(buffer)` calls in
`Recording` starting from a differently cached id binds exactly once: one
native call, the counter up by exactly one, and the cached id equal to the
buffer's object id. -/
theorem C7_bind_counter_once (cl : RHI_CommandList) (buffer : RHI_VertexBuffer)
    (n : Nat) (hs : cl.m_state = RHI_CommandListState.Recording)
    (hid : cl.m_vertex_buffer_id ≠ buffer.object_id) :
    setBufferVertexN cl buffer (n + 1) =
      .ok { cl.emit (.iaSetVertexBuffers 0 1 0 buffer.stride buffer.object_size_gpu) with
            m_vertex_buffer_id := buffer.object_id
            m_rhi_bindings_buffer_vertex := cl.m_rhi_bindings_buffer_vertex + 1 } := by
  have h1 := SetBufferVertex_bind cl buffer 0 hs hid
  simp only [setBufferVertexN, h1]
  exact setBufferVertexN_skip buffer n _
    (by simp [RHI_CommandList.emit, hs]) (by simp [RHI_CommandList.emit])

/-- C7 witness: three consecutive calls with buffer `7` on a fresh recording
list bind once and leave the counter at one. -/
theorem C7_witness :
    clRecording.m_state = RHI_CommandListState.Recording ∧
    clRecording.m_vertex_buffer_id ≠ vb7.object_id ∧
    setBufferVertexN clRecording vb7 3 =
      .ok { clRecording.emit (.iaSetVertexBuffers 0 1 0 vb7.stride vb7.object_size_gpu) with
            m_vertex_buffer_id := vb7.object_id
            m_rhi_bindings_buffer_vertex := clRecording.m_rhi_bindings_buffer_vertex + 1 } :=
  ⟨rfl, by decide, C7_bind_counter_once clRecording vb7 2 rfl (by decide)⟩

/-- C8: every successful pipeline construction uses exactly the three-entry
set-layout list — caller-supplied layout at index 0, comparison-sampler layout
at index 1, regular-sampler layout at index 2 — and each entry is non-null
(otherwise the validation assert fails fatally). -/
theorem C8_set_layout_order (device : RHI_DeviceState) (ps : RHI_PipelineState)
    (dsl : RHI_DescriptorSetLayout) (b : RHI_PipelineBuild)
    (h : RHI_Pipeline.construct device ps dsl = .ok b) :
    b.set_layouts =
      [dsl.rhi_resource, device.layout_sampler_comparison, device.layout_sampler_regular] ∧
    b.set_layouts.length = 3 ∧
    ∀ l ∈ b.set_layouts, l.isSome = true := by
  obtain ⟨h1, h2, -⟩ := construct_ok_fields device ps dsl b h
  refine ⟨by rw [h1]; rfl, by rw [h1]; rfl, ?_⟩
  rw [h1]
  exact validateSetLayouts_ok _ h2

/-- C8 witness: the concrete construction yields the ordered three-entry
list. -/
theorem C8_witness :
    RHI_Pipeline.construct deviceOk psEmpty dslOk = .ok bEmpty ∧
    bEmpty.set_layouts =
      [dslOk.rhi_resource, deviceOk.layout_sampler_comparison,
       deviceOk.layout_sampler_regular] :=
  ⟨by decide, (C8_set_layout_order deviceOk psEmpty dslOk bEmpty (by decide)).1⟩

/-- C9: for any pipeline state whose rasterizer state has depth bias `d`, a
successful construction carries the translated rasterizer state whose depth-
bias constant factor is `floor(d * 2^24)` and whose depth-bias enable flag is
set exactly when `d` is non-zero. -/
theorem C9_depth_bias_scaling (device : RHI_DeviceState) (ps : RHI_PipelineState)
    (dsl : RHI_DescriptorSetLayout) (b : RHI_PipelineBuild)
    (rs : RHI_RasterizerState) (hrs : ps.rasterizer_state = some rs)
    (h : RHI_Pipeline.construct device ps dsl = .ok b) :
    b.rasterizer_state = some (translateRasterizer rs) ∧
    (translateRasterizer rs).depthBiasConstantFactor =
      ((⌊rs.depth_bias * (2 : ℚ) ^ 24⌋ : ℤ) : ℚ) ∧
    ((translateRasterizer rs).depthBiasEnable = true ↔ rs.depth_bias ≠ 0) := by
  obtain ⟨-, -, h3⟩ := construct_ok_fields device ps dsl b h
  refine ⟨by rw [h3, hrs]; rfl, Math_Floor_eq (rs.depth_bias * (2 : ℚ) ^ 24), ?_⟩
  simp [translateRasterizer]

/-- C9 witness: with depth bias `1/2` the constructed pipeline's bias constant
factor is `2^23 = 8388608` and depth bias is enabled. -/
theorem C9_witness :
    psGfx.rasterizer_state = some rsBias ∧
    RHI_Pipeline.construct deviceOk psGfx dslOk = .ok bGfx ∧
    bGfx.rasterizer_state = some (translateRasterizer rsBias) ∧
    (translateRasterizer rsBias).depthBiasConstantFactor =
      ((⌊rsBias.depth_bias * (2 : ℚ) ^ 24⌋ : ℤ) : ℚ) ∧
    ((translateRasterizer rsBias).depthBiasEnable = true ↔ rsBias.depth_bias ≠ 0) :=
  ⟨rfl, construct_psGfx,
   (C9_depth_bias_scaling deviceOk psGfx dslOk bGfx rsBias rfl construct_psGfx).1,
   (C9_depth_bias_scaling deviceOk psGfx dslOk bGfx rsBias rfl construct_psGfx).2.1,
   (C9_depth_bias_scaling deviceOk psGfx dslOk bGfx rsBias rfl construct_psGfx).2.2⟩

/-- C10, counterexample: `DrawIndexed` in the `Recording` state fails fatally
in the `OnDraw` pre-draw hook ("not implemented") — no backend draw with any
instance count is ever issued on D3D12. -/
theorem C10_counterexample :
    clRecording.m_state = RHI_CommandListState.Recording ∧
    RHI_CommandList.DrawIndexed clRecording 6 0 0 5 = .error notImplemented :=
  ⟨rfl, by decide⟩

/-- C10 (amended): in `Recording`, `DrawIndexed` always dies in the
unimplemented `OnDraw` hook before reaching the backend call, and its result
never depends on the `instance_count` argument (the call site hard-codes
instance count 1 and start instance 0). -/
theorem C10_drawindexed_stub (cl : RHI_CommandList)
    (idx off voff inst : Nat) (h : cl.m_state = RHI_CommandListState.Recording) :
    RHI_CommandList.DrawIndexed cl idx off voff inst = .error notImplemented ∧
    (∀ inst', RHI_CommandList.DrawIndexed cl idx off voff inst =
      RHI_CommandList.DrawIndexed cl idx off voff inst') := by
  constructor
  · simp [RHI_CommandList.DrawIndexed, RHI_CommandList.OnDraw, SP_ASSERT, h,
      exceptBind_ok, exceptBind_err, exceptPure, notImplemented]
  · intro inst'
    rfl

/-- C10 witness: a concrete `DrawIndexed` in `Recording` hits the fatal "not
implemented" diagnostic. -/
theorem C10_witness :
    clRecording.m_state = RHI_CommandListState.Recording ∧
    RHI_CommandList.DrawIndexed clRecording 3 1 2 7 = .error notImplemented :=
  ⟨rfl, (C10_drawindexed_stub clRecording 3 1 2 7 rfl).1⟩
